import Mathlib

/-!
Shallow embedding of the ZENITH-ULTRA dashboard (a React single-page app).
The app is pure presentation-state management: all handlers are modelled as
pure state-transition functions on an `AppState` record mirroring the
`useState` hooks of the component.  Timestamps produced by `getLogTimestamp`
are abstracted to a `Nat` millisecond clock threaded through the handlers;
`setTimeout` chains whose delays are strictly increasing fire in index order,
so a completed scripted sequence is modelled as the in-order fold of its
step callbacks, each step receiving its scheduled fire time.
-/

namespace Zenith

/-- Health state of the simulated system (`systemHealth` hook). -/
inductive Health
  | STABLE
  | MODIFIED
  | OPTIMIZING
deriving DecidableEq, Repr

/-- Boost engine tag (`'smart' | 'hxd'`). -/
inductive Engine
  | smart
  | hxd
deriving DecidableEq, Repr

/-- `PerformanceProfile` from types.ts, extended with the `boostEngine` tag
as in the `perfProfile` hook. -/
structure PerfProfile where
  targetFps : Nat
  hexMovementBoost : Bool
  boostEngine : Option Engine
deriving DecidableEq, Repr

/-- `OptimizationTip.category` enum. -/
inductive TipCategory
  | OS
  | Network
  | Hardware
  | Process
  | Compatibility
deriving DecidableEq, Repr

/-- `OptimizationTip.impact` enum. -/
inductive TipImpact
  | High
  | Medium
  | Extreme
deriving DecidableEq, Repr

/-- `OptimizationTip` from types.ts. -/
structure OptimizationTip where
  category : TipCategory
  title : String
  description : String
  impact : TipImpact
deriving DecidableEq, Repr

/-- `ProcessItem.status` enum. -/
inductive PStatus
  | safe
  | caution
  | critical
deriving DecidableEq, Repr

/-- Raw result record returned by the process-analysis service. -/
structure ProcResult where
  name : String
  status : PStatus
  recommendation : String
deriving DecidableEq, Repr

/-- `ProcessItem` from types.ts. -/
structure ProcessItem where
  id : String
  name : String
  cpu : Nat
  memory : Nat
  status : PStatus
  recommendation : String
  priority : String
  affinity : String
deriving DecidableEq, Repr

/-- `SystemStats` from types.ts; numeric fields are JS numbers, modelled
as rationals. -/
structure SystemStats where
  cpuUsage : ℚ
  ramUsage : ℚ
  temp : ℚ
  ping : ℚ
  activeProcesses : ℚ
deriving DecidableEq, Repr

/-- One `{time, cpu, ram}` snapshot of the rolling chart buffer. -/
structure ChartPoint where
  time : Nat
  cpu : ℚ
  ram : ℚ
deriving DecidableEq, Repr

/-- The mutable state of the `App` component (the `useState` hooks touched
by the handlers the claims are about).  A log line is a `(time, message)`
pair: `addLog` prefixes each message with a wall-clock timestamp, which we
abstract to the `Nat` clock value. -/
structure AppState where
  boostLog : List (Nat × String)
  systemHealth : Health
  perfProfile : PerfProfile
  isOptimizing : Bool
  isOfficialBoosting : Bool
  isOverlayActive : Bool
  isGameRunning : Bool
  isRestoring : Bool
  importedGamePath : Option String
  gameName : String
  isOnline : Bool
  tips : List OptimizationTip
  analyzedProcesses : List ProcessItem
deriving DecidableEq, Repr

/-- `addLog`: prepends a timestamped line (newest first). -/
def addLog (t : Nat) (msg : String) (s : AppState) : AppState :=
  { s with boostLog := (t, msg) :: s.boostLog }

/-! ## Telemetry jitter generator (the 1500ms `setInterval` callback) -/

/-- One tick of the `setStats` interval callback.  `r1 r2 r3 r4` stand for
the four `Math.random()` draws. -/
def statsTick (isGameRunning isOnline : Bool) (r1 r2 r3 r4 : ℚ)
    (prev : SystemStats) : SystemStats :=
  { prev with
    cpuUsage := if isGameRunning then
        max 40 (min 95 (prev.cpuUsage + (r1 * 10 - 5)))
      else max 5 (min 25 (prev.cpuUsage + (r1 * 4 - 2)))
    ramUsage := if isGameRunning then
        max 60 (min 90 (prev.ramUsage + (r2 * 5 - 2)))
      else max 15 (min 35 (prev.ramUsage + (r2 * 4 - 2)))
    temp := if isGameRunning then
        max 65 (min 85 (prev.temp + (r3 * 2 - 1)))
      else max 35 (min 50 (prev.temp + (r3 * 2 - 1)))
    ping := if isOnline then max 5 (min 100 (prev.ping + (r4 * 6 - 3))) else 0 }

/-- One tick of the `setChartData` updater: append the newest snapshot and
keep the last 15 entries (`[...prev, point].slice(-15)`). -/
def chartTick (prev : List ChartPoint) (p : ChartPoint) : List ChartPoint :=
  let nd := prev ++ [p]
  nd.drop (nd.length - 15)

/-! ## Helper lemmas for the clamp ranges -/

theorem clamp_mem (lo hi x : ℚ) (h : lo ≤ hi) :
    lo ≤ max lo (min hi x) ∧ max lo (min hi x) ≤ hi :=
  ⟨le_max_left _ _, max_le h (min_le_left _ _)⟩

/-- C3: every telemetry tick lands each field in the documented clamp range
for the current mode: cpu in [40,95] (running) / [5,25] (idle); ram in
[60,90] / [15,35]; temp in [65,85] / [35,50]; ping in [5,100] when online
and exactly 0 when offline — regardless of the previous stats value (and in
fact regardless of the random draws). -/
theorem statsTick_ranges (running online : Bool) (r1 r2 r3 r4 : ℚ)
    (prev : SystemStats) :
    (if running then
        40 ≤ (statsTick running online r1 r2 r3 r4 prev).cpuUsage ∧
          (statsTick running online r1 r2 r3 r4 prev).cpuUsage ≤ 95
      else
        5 ≤ (statsTick running online r1 r2 r3 r4 prev).cpuUsage ∧
          (statsTick running online r1 r2 r3 r4 prev).cpuUsage ≤ 25) ∧
    (if running then
        60 ≤ (statsTick running online r1 r2 r3 r4 prev).ramUsage ∧
          (statsTick running online r1 r2 r3 r4 prev).ramUsage ≤ 90
      else
        15 ≤ (statsTick running online r1 r2 r3 r4 prev).ramUsage ∧
          (statsTick running online r1 r2 r3 r4 prev).ramUsage ≤ 35) ∧
    (if running then
        65 ≤ (statsTick running online r1 r2 r3 r4 prev).temp ∧
          (statsTick running online r1 r2 r3 r4 prev).temp ≤ 85
      else
        35 ≤ (statsTick running online r1 r2 r3 r4 prev).temp ∧
          (statsTick running online r1 r2 r3 r4 prev).temp ≤ 50) ∧
    (if online then
        5 ≤ (statsTick running online r1 r2 r3 r4 prev).ping ∧
          (statsTick running online r1 r2 r3 r4 prev).ping ≤ 100
      else (statsTick running online r1 r2 r3 r4 prev).ping = 0) := by
  cases running <;> cases online <;>
    simp only [statsTick, if_true, if_false, Bool.false_eq_true, ite_true,
      ite_false]
  · exact ⟨clamp_mem 5 25 _ (by norm_num), clamp_mem 15 35 _ (by norm_num),
      clamp_mem 35 50 _ (by norm_num), trivial⟩
  · exact ⟨clamp_mem 5 25 _ (by norm_num), clamp_mem 15 35 _ (by norm_num),
      clamp_mem 35 50 _ (by norm_num), clamp_mem 5 100 _ (by norm_num)⟩
  · exact ⟨clamp_mem 40 95 _ (by norm_num), clamp_mem 60 90 _ (by norm_num),
      clamp_mem 65 85 _ (by norm_num), trivial⟩
  · exact ⟨clamp_mem 40 95 _ (by norm_num), clamp_mem 60 90 _ (by norm_num),
      clamp_mem 65 85 _ (by norm_num), clamp_mem 5 100 _ (by norm_num)⟩

/-- C4: the rolling chart buffer never exceeds 15 entries; each tick appends
the newest snapshot at the end; while the buffer is below capacity nothing
is dropped, and when it is full exactly the oldest entry is dropped (FIFO
window); folding any tick sequence from the empty buffer stays within the
bound. -/
theorem chartTick_window :
    (∀ (prev : List ChartPoint) (p : ChartPoint),
        (chartTick prev p).length ≤ 15) ∧
    (∀ (prev : List ChartPoint) (p : ChartPoint),
        ∃ k, chartTick prev p = (prev ++ [p]).drop k) ∧
    (∀ (prev : List ChartPoint) (p : ChartPoint),
        prev.length ≤ 14 → chartTick prev p = prev ++ [p]) ∧
    (∀ (prev : List ChartPoint) (p : ChartPoint),
        prev.length = 15 → chartTick prev p = prev.tail ++ [p]) ∧
    (∀ ticks : List ChartPoint,
        (ticks.foldl chartTick []).length ≤ 15) := by
  have hlen : ∀ (prev : List ChartPoint) (p : ChartPoint),
      (chartTick prev p).length ≤ 15 := by
    intro prev p
    simp only [chartTick, List.length_drop]
    omega
  refine ⟨hlen, ?_, ?_, ?_, ?_⟩
  · intro prev p
    exact ⟨(prev ++ [p]).length - 15, rfl⟩
  · intro prev p h
    simp only [chartTick, List.length_append, List.length_singleton]
    have : prev.length + 1 - 15 = 0 := by omega
    simp [this]
  · intro prev p h
    cases prev with
    | nil => simp at h
    | cons a rest =>
      simp only [chartTick, List.length_append, List.length_singleton,
        List.length_cons, List.tail_cons]
      have hr : rest.length = 14 := by simp at h; omega
      have : (a :: rest).length + 1 - 15 = 1 := by simp [hr]
      simp only [List.length_cons, hr]
      simp
  · have hfold : ∀ (ticks start : List ChartPoint), start.length ≤ 15 →
        (ticks.foldl chartTick start).length ≤ 15 := by
      intro ticks
      induction ticks with
      | nil => intro start h; simpa using h
      | cons t rest ih =>
        intro start h
        simpa using ih (chartTick start t) (hlen start t)
    intro ticks
    exact hfold ticks [] (by simp)

/-- Witness for `chartTick_window`: at a concrete full (15-entry) buffer the
tick drops exactly the oldest entry, and at a concrete small buffer it drops
nothing. -/
theorem chartTick_window_witness :
    chartTick (List.replicate 15 ⟨0, 1, 2⟩) ⟨9, 3, 4⟩ =
      (List.replicate 15 (⟨0, 1, 2⟩ : ChartPoint)).tail ++ [⟨9, 3, 4⟩] ∧
    chartTick [⟨0, 1, 2⟩] ⟨9, 3, 4⟩ = [⟨0, 1, 2⟩, ⟨9, 3, 4⟩] :=
  ⟨chartTick_window.2.2.2.1 _ _ (by simp),
    chartTick_window.2.2.1 _ _ (by simp)⟩

/-! ## geminiService.ts -/

/-- Outcome of one attempt of `ai.models.generateContent`: success with a
response text, or a thrown error whose message either matches the transient
signatures (`"500"` / `"xhr error"`) or not. -/
inductive CallOutcome
  | ok (text : String)
  | err (transient : Bool)
deriving DecidableEq, Repr

/-- `callGemini(params, retries)`.  The network is abstracted as an oracle
giving the outcome of the k-th attempt; `online` is `navigator.onLine`
(re-checked on each recursive call).  Returns the response text, or `none`
(the `null` that triggers the offline fallbacks). -/
def callGemini (online : Bool) (oracle : Nat → CallOutcome) :
    Nat → Nat → Option String
  | 0, k =>
    if online then
      match oracle k with
      | .ok text => some text
      | .err _ => none
    else none
  | r + 1, k =>
    if online then
      match oracle k with
      | .ok text => some text
      | .err transient =>
        if transient then callGemini online oracle r (k + 1) else none
    else none

/-- Number of `generateContent` attempts `callGemini` makes. -/
def callGeminiAttempts (online : Bool) (oracle : Nat → CallOutcome) :
    Nat → Nat → Nat
  | 0, k =>
    if online then
      match oracle k with
      | .ok _ => 1
      | .err _ => 1
    else 0
  | r + 1, k =>
    if online then
      match oracle k with
      | .ok _ => 1
      | .err transient =>
        if transient then 1 + callGeminiAttempts online oracle r (k + 1) else 1
    else 0

/-- `callGemini` at its default retry budget (`retries = 2`). -/
def callGeminiDefault (online : Bool) (oracle : Nat → CallOutcome) :
    Option String :=
  callGemini online oracle 2 0

/-- The static fallback list of `generateExecutionPlan`. -/
def planFallback (gameName : String) : List String :=
  [ "LOCAL: Locking CPU Affinity for core 0-3",
    "LOCAL: Flushing standby memory lists for " ++ gameName,
    "LOCAL: Suspending non-critical I/O handles",
    "LOCAL: Reallocating virtual memory pool to high-speed cache",
    "LOCAL: Optimizing kernel interrupt request (IRQ) pacing" ]

/-- `generateExecutionPlan`; `parse` abstracts `JSON.parse` against the
string-array response schema (`none` = parse throws). -/
def generateExecutionPlan (online : Bool) (oracle : Nat → CallOutcome)
    (parse : String → Option (List String)) (gameName : String) :
    List String :=
  match callGeminiDefault online oracle with
  | some r =>
    match parse r with
    | some steps => steps
    | none => planFallback gameName
  | none => planFallback gameName

/-- The static fallback list of `getOptimizationAdvice`. -/
def adviceFallback (gameName : String) : List OptimizationTip :=
  [ { category := .OS, title := "Ultimate Performance Mode",
      description := "Force the OS kernel into its highest power state. Useful for laptops and systems with aggressive power saving.",
      impact := .High },
    { category := .Process, title := "Realtime Priority Bridge",
      description := "Bridges " ++ gameName ++ "\x27s main thread directly to the kernel bypass for lower input latency.",
      impact := .Extreme },
    { category := .Hardware, title := "Page File Expansion",
      description := "Manually expand the virtual memory buffer to prevent out-of-memory crashes on systems with limited physical RAM.",
      impact := .High },
    { category := .OS, title := "Disable Superfetch",
      description := "Stop the OS from pre-caching non-gaming applications during your active session to free up I/O bandwidth.",
      impact := .Medium },
    { category := .Compatibility, title := "Legacy Instruction Emulation",
      description := "Force old software to use modern CPU instruction sets via an software-defined affinity mask.",
      impact := .Medium } ]

/-- `getOptimizationAdvice`. -/
def getOptimizationAdvice (online : Bool) (oracle : Nat → CallOutcome)
    (parse : String → Option (List OptimizationTip)) (gameName : String)
    (isLowEnd : Bool) : List OptimizationTip :=
  match callGeminiDefault online oracle, isLowEnd with
  | some r, _ =>
    match parse r with
    | some tips => tips
    | none => adviceFallback gameName
  | none, _ => adviceFallback gameName

/-- `pat` occurs as a contiguous run at the head of `l`. -/
def listPrefixOf : List Char → List Char → Bool
  | [], _ => true
  | _ :: _, [] => false
  | a :: as, b :: bs => a = b && listPrefixOf as bs

/-- `pat` occurs as a contiguous run anywhere in `l`
(JS `String.prototype.includes`). -/
def containsSub (pat : List Char) : List Char → Bool
  | [] => pat.isEmpty
  | c :: rest => listPrefixOf pat (c :: rest) || containsSub pat rest

/-- `lowerName.includes(pat)` on strings. -/
def strContains (s pat : String) : Bool :=
  containsSub pat.toList s.toList

/-- The heuristic (fallback) classification of one process name in
`analyzeProcesses`. -/
def heuristicEntry (name : String) : ProcResult :=
  let lowerName := name.toLower
  if strContains lowerName "discord" || strContains lowerName "chrome" ||
      strContains lowerName "steam" then
    { name := name, status := .safe,
      recommendation := "Safe to terminate. These consume significant RAM/CPU." }
  else if strContains lowerName "search" || strContains lowerName "indexer" ||
      strContains lowerName "telemetry" then
    { name := name, status := .safe,
      recommendation := "Recommended to disable during gameplay to reduce disk I/O." }
  else
    { name := name, status := .caution,
      recommendation := "Manual identification required. Likely a system or driver handle." }

/-- The fallback list of `analyzeProcesses`: the heuristic map over the
given process names. -/
def analyzeProcessesFallback (processNames : List String) : List ProcResult :=
  processNames.map heuristicEntry

/-- `analyzeProcesses`. -/
def analyzeProcesses (online : Bool) (oracle : Nat → CallOutcome)
    (parse : String → Option (List ProcResult)) (processNames : List String) :
    List ProcResult :=
  match callGeminiDefault online oracle with
  | some r =>
    match parse r with
    | some results => results
    | none => analyzeProcessesFallback processNames
  | none => analyzeProcessesFallback processNames

/-- The literal five process names `fetchProcesses` passes to
`analyzeProcesses`. -/
def scannedNames : List String :=
  ["Discord.exe", "Chrome.exe", "SearchIndexer.exe", "Steam.exe", "svchost.exe"]

/-- C6: whenever the device is offline, or the external call fails (its
retry budget exhausted, `callGemini` returning `null`), or the response
fails to parse, each of the three services returns exactly its static
fallback list (the services are total functions into plain lists, so no
error ever reaches the caller); at the app's fixed five-name call site the
process fallback is the literal heuristic classification. -/
theorem services_fallback (oracle : Nat → CallOutcome)
    (parseP : String → Option (List String))
    (parseT : String → Option (List OptimizationTip))
    (parseR : String → Option (List ProcResult))
    (gameName : String) (isLowEnd : Bool) (names : List String) :
    (generateExecutionPlan false oracle parseP gameName =
        planFallback gameName ∧
      getOptimizationAdvice false oracle parseT gameName isLowEnd =
        adviceFallback gameName ∧
      analyzeProcesses false oracle parseR names =
        analyzeProcessesFallback names) ∧
    (∀ online : Bool, callGeminiDefault online oracle = none →
      generateExecutionPlan online oracle parseP gameName =
          planFallback gameName ∧
        getOptimizationAdvice online oracle parseT gameName isLowEnd =
          adviceFallback gameName ∧
        analyzeProcesses online oracle parseR names =
          analyzeProcessesFallback names) ∧
    (∀ (online : Bool) (r : String),
      callGeminiDefault online oracle = some r →
      (parseP r = none →
        generateExecutionPlan online oracle parseP gameName =
          planFallback gameName) ∧
      (parseT r = none →
        getOptimizationAdvice online oracle parseT gameName isLowEnd =
          adviceFallback gameName) ∧
      (parseR r = none →
        analyzeProcesses online oracle parseR names =
          analyzeProcessesFallback names)) ∧
    analyzeProcessesFallback scannedNames =
      [ heuristicEntry "Discord.exe", heuristicEntry "Chrome.exe",
        heuristicEntry "SearchIndexer.exe", heuristicEntry "Steam.exe",
        heuristicEntry "svchost.exe" ] := by
  have hoff : callGeminiDefault false oracle = none := rfl
  refine ⟨?_, ?_, ?_, rfl⟩
  · exact ⟨by simp [generateExecutionPlan, hoff],
      by simp [getOptimizationAdvice, hoff],
      by simp [analyzeProcesses, hoff]⟩
  · intro online h
    exact ⟨by simp [generateExecutionPlan, h],
      by simp [getOptimizationAdvice, h],
      by simp [analyzeProcesses, h]⟩
  · intro online r h
    exact ⟨fun hp => by simp [generateExecutionPlan, h, hp],
      fun hp => by simp [getOptimizationAdvice, h, hp],
      fun hp => by simp [analyzeProcesses, h, hp]⟩

/-- Witness for `services_fallback`: a concrete oracle that always fails
non-transiently and a parser that always rejects; the plan service returns
its fallback both ways. -/
theorem services_fallback_witness :
    callGeminiDefault true (fun _ => CallOutcome.err false) = none ∧
    generateExecutionPlan true (fun _ => CallOutcome.err false)
        (fun _ => none) "Doom" = planFallback "Doom" ∧
    (fun _ : String => (none : Option (List String))) "x" = none ∧
    generateExecutionPlan true (fun _ => CallOutcome.ok "x")
        (fun _ => none) "Doom" = planFallback "Doom" := by
  have h1 : callGeminiDefault true (fun _ => CallOutcome.err false) = none := rfl
  have h2 : callGeminiDefault true (fun _ => CallOutcome.ok "x") = some "x" := rfl
  refine ⟨h1, ?_, rfl, ?_⟩
  · exact ((services_fallback (fun _ => CallOutcome.err false)
      (fun _ => none) (fun _ => none) (fun _ => none) "Doom" false []).2.1
      true h1).1
  · exact (((services_fallback (fun _ => CallOutcome.ok "x")
      (fun _ => none) (fun _ => none) (fun _ => none) "Doom" false []).2.2.1
      true "x" h2).1) rfl

/-- Offline, `callGemini` makes no attempt and returns `null` at any
retry budget. -/
theorem callGemini_offline (oracle : Nat → CallOutcome) :
    ∀ r k, callGemini false oracle r k = none := by
  intro r k
  cases r <;> rfl

/-- The attempt count is bounded by the retry budget plus one. -/
theorem callGeminiAttempts_le (online : Bool) (oracle : Nat → CallOutcome) :
    ∀ r k, callGeminiAttempts online oracle r k ≤ r + 1 := by
  intro r
  induction r with
  | zero =>
    intro k
    cases online <;> simp [callGeminiAttempts] <;> cases oracle k <;> simp
  | succ n ih =>
    intro k
    cases online with
    | false => simp [callGeminiAttempts]
    | true =>
      simp only [callGeminiAttempts, if_true]
      cases oracle k with
      | ok text =>
        show 1 ≤ n + 1 + 1
        omega
      | err transient =>
        cases transient with
        | false =>
          show 1 ≤ n + 1 + 1
          omega
        | true =>
          show 1 + callGeminiAttempts true oracle n (k + 1) ≤ n + 1 + 1
          have := ih (k + 1)
          omega

/-- An oracle whose first two attempts fail with a transient signature and
whose third succeeds. -/
def flakyOracle : Nat → CallOutcome
  | 0 => .err true
  | 1 => .err true
  | _ => .ok "PLAN"

/-- Counterexample to C7: the claim says a transient failure is retried
exactly once and any further failure immediately routes to the fallback
(so at most two attempts, and two transient failures in a row yield the
fallback `null`).  With the default budget (`retries = 2`) the code makes a
second retry: after two transient failures the third attempt runs and its
result is returned, for three attempts in total. -/
theorem callGemini_second_retry_counterexample :
    callGeminiDefault true flakyOracle = some "PLAN" ∧
    callGeminiAttempts true flakyOracle 2 0 = 3 :=
  ⟨rfl, rfl⟩

/-- C7 amended: on a transient-looking failure (message containing a 500 or
xhr-error signature) with retry budget remaining, the call is retried
(consuming one unit of budget); a non-transient failure, or a transient
failure with the budget exhausted, immediately yields the fallback `null`;
with the default budget of 2 at most three attempts are ever made. -/
theorem callGemini_retry (online : Bool) (oracle : Nat → CallOutcome)
    (k : Nat) :
    (∀ r, oracle k = .err false → callGemini online oracle r k = none) ∧
    (∀ r, oracle k = .err true →
      callGemini online oracle (r + 1) k = callGemini online oracle r (k + 1)) ∧
    (oracle k = .err true → callGemini online oracle 0 k = none) ∧
    callGeminiAttempts online oracle 2 k ≤ 3 := by
  refine ⟨?_, ?_, ?_, callGeminiAttempts_le online oracle 2 k⟩
  · intro r h
    cases online with
    | false => exact callGemini_offline oracle r k
    | true => cases r <;> simp [callGemini, h]
  · intro r h
    cases online with
    | false =>
      rw [callGemini_offline oracle (r + 1) k, callGemini_offline oracle r (k + 1)]
    | true => simp [callGemini, h]
  · intro h
    cases online with
    | false => exact callGemini_offline oracle 0 k
    | true => simp [callGemini, h]

/-- Witness for `callGemini_retry`: with a concrete always-non-transient
oracle the first attempt already yields the fallback, and with
`flakyOracle` a retry steps to the next attempt. -/
theorem callGemini_retry_witness :
    callGemini true (fun _ => CallOutcome.err false) 2 0 = none ∧
    callGemini true flakyOracle 2 0 = callGemini true flakyOracle 1 1 :=
  ⟨(callGemini_retry true (fun _ => CallOutcome.err false) 0).1 2 rfl,
    (callGemini_retry true flakyOracle 0).2.1 1 rfl⟩

/-! ## Boost / restore sequencers

Each scripted sequence schedules step `i` (0-based) at `(i + 1) * cadence`
milliseconds after invocation; the delays are strictly increasing, so a
completed run is the in-order fold of the step callbacks.  `runSteps` is
that fold: every step prepends its line via `addLog` at its fire time, and
the callback of the last step additionally applies the final-state update
`fin`. -/

/-- In-order execution of a `steps.forEach((step, i) => setTimeout(..., (i+1)*cadence))`
chain, starting at step index `i`. -/
def runSteps (t0 cadence : Nat) :
    Nat → List String → (AppState → AppState) → AppState → AppState
  | _, [], _, s => s
  | i, m :: rest, fin, s =>
    let s1 := addLog (t0 + (i + 1) * cadence) m s
    if rest.isEmpty then fin s1 else runSteps t0 cadence (i + 1) rest fin s1

/-- The log entries such a chain produces, newest first: step `i` fires at
`t0 + (i + 1) * cadence`. -/
def scriptEntries (t0 cadence : Nat) :
    Nat → List String → List (Nat × String)
  | _, [] => []
  | i, m :: rest =>
    scriptEntries t0 cadence (i + 1) rest ++ [(t0 + (i + 1) * cadence, m)]

/-- JS `targetFps || 60` (0 is falsy). -/
def orElse60 (fps : Nat) : Nat :=
  if fps = 0 then 60 else fps

/-- The fixed 7-line script of `handleHxDBoost` (closure captures the
invocation-time `perfProfile.targetFps`). -/
def hxdSteps (fps : Nat) : List String :=
  [ "[HX] Locating instruction pointer offset for frame-throttle...",
    "[PATCH] Identifying velocity vectors at address 0x00A4F2E...",
    "[INJECTION] Applying 0x90 (NOP) sequence to hard-coded limiter...",
    "[SYNC] Synchronizing High-Precision Event Timer (HPET) with core clock...",
    "[THREAD] Setting REALTIME I/O priority for process handles...",
    "[LINK] Direct memory bridge active. No AI latency overhead.",
    "[CORE] Target execution locked at " ++ toString (orElse60 fps) ++ " FPS." ]

/-- The state update of the last `handleHxDBoost` step (`fps0` is the
invocation-time `perfProfile.targetFps` captured by the closure). -/
def hxdFinalStep (fps0 : Nat) (s : AppState) : AppState :=
  { s with
    perfProfile :=
      { targetFps := orElse60 fps0, hexMovementBoost := true,
        boostEngine := some Engine.hxd }
    isGameRunning := true
    isOverlayActive := true
    systemHealth := Health.MODIFIED
    isOfficialBoosting := false }

/-- `handleHxDBoost`, run to completion (all scheduled steps fired).
Returns the blocking alert message, if any, together with the state. -/
def handleHxDBoost (t0 : Nat) (s : AppState) : Option String × AppState :=
  match s.importedGamePath with
  | none => (some "Please link a game executable target first.", s)
  | some _ =>
    let s1 :=
      addLog t0 ("[HxD-INIT] Accessing memory region for " ++ s.gameName ++ "...")
        { s with isOfficialBoosting := true, systemHealth := Health.OPTIMIZING }
    (none,
      runSteps t0 350 0 (hxdSteps s.perfProfile.targetFps)
        (hxdFinalStep s.perfProfile.targetFps) s1)

/-- `engine.toUpperCase()`. -/
def engineUpper : Engine → String
  | .smart => "SMART"
  | .hxd => "HXD"

/-- The script of `startBoostingSequence`: three fixed lines, then the
tagged custom steps, then five fixed lines. -/
def baseSteps (engine : Engine) (gameName : String)
    (customSteps : List String) : List String :=
  [ "[SIGNAL] Launching " ++ engineUpper engine ++ " BOOST sequence for " ++
      gameName ++ "...",
    "[MEM] Mapping process virtual memory pages for isolation...",
    "[CPU] Identifying thread topology and hyper-threading constraints..." ] ++
  customSteps.map (fun s => "[NEURAL] Strategy: " ++ s) ++
  [ "[IRQ] Elevating kernel interrupt request priority for mouse/keyboard...",
    "[CACHE] Flushing instruction cache to prioritize " ++ gameName ++ " data...",
    "[AFFINITY] Locking process to core cluster 0-3...",
    "[ZENITH] ENGINE IS ACTIVE. SYSTEM OPTIMIZED.",
    "[HUD] Performance OSD successfully attached to render pipeline." ]

/-- The state update of the last `startBoostingSequence` step. -/
def smartFinalStep (s : AppState) : AppState :=
  { s with
    isOfficialBoosting := false
    isGameRunning := true
    isOverlayActive := true
    systemHealth := Health.MODIFIED }

/-- `startBoostingSequence`, run to completion: clears the log, then fires
the script on a 400ms-per-step cadence. -/
def startBoostingSequence (t0 : Nat) (engine : Engine)
    (customSteps : List String) (s : AppState) : AppState :=
  let s1 := { s with isOfficialBoosting := true, boostLog := [] }
  runSteps t0 400 0 (baseSteps engine s.gameName customSteps) smartFinalStep s1

/-- `selectBoostEngineAndStart`, run to completion.  `customSteps` stands
for the value the awaited `generateExecutionPlan` call resolved to (for the
`hxd` engine it is never consulted). -/
def selectBoostEngineAndStart (t0 : Nat) (engine : Engine)
    (customSteps : List String) (s : AppState) : Option String × AppState :=
  if s.perfProfile.targetFps = 0 then
    (some "Please select a target FPS first.", s)
  else
    match s.importedGamePath with
    | none => (some "Please link a game executable target first.", s)
    | some _ =>
      match engine with
      | .hxd => handleHxDBoost t0 s
      | .smart =>
        let s1 :=
          { s with
            perfProfile :=
              { s.perfProfile with
                boostEngine := some Engine.smart, hexMovementBoost := false }
            systemHealth := Health.OPTIMIZING }
        let s2 :=
          addLog t0
            (if s.isOnline then "[AI_CORE] Requesting Neural Strategy from Cloud..."
              else "[AI_CORE] Generating Local Optimization Plan...") s1
        (none, startBoostingSequence t0 Engine.smart customSteps s2)

/-- The fixed 6-line script of `handleRestoreSystem`. -/
def restoreSteps : List String :=
  [ "[RESTORE] Decoupling process hooks from HAL (Hardware Abstraction Layer)...",
    "[RESTORE] Normalizing CPU affinity masks to default OS scheduling...",
    "[RESTORE] Resetting I/O priority levels from REALTIME to NORMAL...",
    "[RESTORE] Flushing memory patches and re-syncing instruction cache...",
    "[RESTORE] Re-enabling OS telemetry and background power-save handles...",
    "[RESTORE] System clock re-synchronized. Environment STABLE." ]

/-- The state update of the last `handleRestoreSystem` step. -/
def restoreFinalStep (s : AppState) : AppState :=
  { s with
    isRestoring := false
    isGameRunning := false
    isOverlayActive := false
    systemHealth := Health.STABLE
    perfProfile := { targetFps := 0, hexMovementBoost := false, boostEngine := none } }

/-- `handleRestoreSystem`, run to completion: one immediate log line, then
the 6-line script on a 450ms-per-step cadence. -/
def handleRestoreSystem (t0 : Nat) (s : AppState) : AppState :=
  let s1 :=
    addLog t0 "[RESTORE] Initializing system normalization sequence..."
      { s with isRestoring := true }
  runSteps t0 450 0 restoreSteps restoreFinalStep s1

/-- `selectFpsTarget`. -/
def selectFpsTarget (t0 fps : Nat) (s : AppState) : AppState :=
  addLog t0
    ("[TUNER] Frame-pacing target synchronized to " ++ toString fps ++ " Hz.")
    { s with perfProfile := { s.perfProfile with targetFps := fps } }

/-- A click on one of the `FPS_TARGETS` buttons: the control carries
`disabled={isGameRunning || isRestoring}`, and a disabled control never
fires its click handler, so triggering it is the identity in those modes. -/
def fpsButtonClick (t0 fps : Nat) (s : AppState) : AppState :=
  if s.isGameRunning || s.isRestoring then s else selectFpsTarget t0 fps s

/-- `file.name.replace(/\.[^/.]+$/, "")`: scanning the reversed characters,
find the run matched by the regex (one or more characters, none of them a
slash or dot, preceded by a dot, anchored at the end) and return the
remainder, or `none` when the regex does not match. -/
def dropExtRev (seen : Nat) : List Char → Option (List Char)
  | [] => none
  | c :: rest =>
    if c = '.' then (if seen = 0 then none else some rest)
    else if c = '/' then none
    else dropExtRev (seen + 1) rest

/-- Strip the trailing file extension as the JS regex replace does. -/
def stripExt (name : String) : String :=
  match dropExtRev 0 name.toList.reverse with
  | some rest => String.mk rest.reverse
  | none => name

/-- `handleImportGame` with a file selected (`fileName` is `file.name`;
the localStorage write is outside the model). -/
def handleImportGame (t0 : Nat) (fileName : String) (s : AppState) : AppState :=
  addLog t0 ("[FILESYSTEM] Target Linked: " ++ fileName ++ ". Memory addresses mapped.")
    { s with importedGamePath := some fileName, gameName := stripExt fileName }

/-- `handleOptimization`, run to completion; `advice` is the value the
awaited `getOptimizationAdvice` call resolved to. -/
def handleOptimization (t0 : Nat) (advice : List OptimizationTip)
    (s : AppState) : AppState :=
  if s.gameName = "" then s
  else
    let s1 :=
      addLog t0
        ("[CORE] Initiating " ++ (if s.isOnline then "Neural" else "Local Heuristic") ++
          " analysis for \"" ++ s.gameName ++ "\"...")
        { s with isOptimizing := true }
    addLog t0
      ("[KERNEL] Analysis complete. Execution engines initialized in " ++
        (if s.isOnline then "Cloud" else "Offline") ++ " mode.")
      { s1 with tips := advice, isOptimizing := false }

/-- `fetchProcesses`, run to completion; `results` is the value the awaited
`analyzeProcesses` call resolved to, `rnd i` the two `Math.random()` draws
of row `i` (already floored to their `[0,10)` / `[0,400)` ranges). -/
def fetchProcesses (t0 : Nat) (results : List ProcResult)
    (rnd : Nat → Nat × Nat) (s : AppState) : AppState :=
  let s1 :=
    addLog t0 "[SCAN] Analyzing background process tree for bottleneck identification..."
      s
  { s1 with
    analyzedProcesses :=
      results.enum.map fun ir =>
        { id := toString ir.1, name := ir.2.name,
          cpu := (rnd ir.1).1 % 10, memory := (rnd ir.1).2 % 400,
          status := ir.2.status, recommendation := ir.2.recommendation,
          priority := "Normal", affinity := "All Cores" } }

/-- A completed step chain prepends exactly its script entries (newest
first) to the log, provided the final update leaves the log alone. -/
theorem runSteps_boostLog (t0 c : Nat) (fin : AppState → AppState)
    (hfin : ∀ st, (fin st).boostLog = st.boostLog) :
    ∀ (msgs : List String) (i : Nat) (s : AppState),
      (runSteps t0 c i msgs fin s).boostLog =
        scriptEntries t0 c i msgs ++ s.boostLog := by
  intro msgs
  induction msgs with
  | nil => intro i s; simp [runSteps, scriptEntries]
  | cons m rest ih =>
    intro i s
    cases rest with
    | nil => simp [runSteps, scriptEntries, hfin, addLog]
    | cons m2 r2 =>
      have hstep : runSteps t0 c i (m :: m2 :: r2) fin s =
          runSteps t0 c (i + 1) (m2 :: r2) fin (addLog (t0 + (i + 1) * c) m s) :=
        rfl
      rw [hstep, ih]
      simp [scriptEntries, addLog]

/-- A completed nonempty step chain ends by applying the final update. -/
theorem runSteps_last (t0 c : Nat) (fin : AppState → AppState) :
    ∀ (msgs : List String) (i : Nat) (s : AppState), msgs ≠ [] →
      ∃ s1, runSteps t0 c i msgs fin s = fin s1 := by
  intro msgs
  induction msgs with
  | nil => intro i s h; exact absurd rfl h
  | cons m rest ih =>
    intro i s _
    cases rest with
    | nil => exact ⟨addLog (t0 + (i + 1) * c) m s, rfl⟩
    | cons m2 r2 =>
      simpa only [runSteps, List.isEmpty_cons, if_false, Bool.false_eq_true,
        ite_false] using ih (i + 1) (addLog (t0 + (i + 1) * c) m s) (by simp)

/-- A concrete session state: target linked, health STABLE, no rate
chosen, empty log. -/
def demoState : AppState :=
  { boostLog := []
    systemHealth := .STABLE
    perfProfile := { targetFps := 0, hexMovementBoost := false, boostEngine := none }
    isOptimizing := false
    isOfficialBoosting := false
    isOverlayActive := false
    isGameRunning := false
    isRestoring := false
    importedGamePath := some "game.exe"
    gameName := "game"
    isOnline := true
    tips := []
    analyzedProcesses := [] }

/-- `demoState` with a chosen rate and a running, MODIFIED session. -/
def runningState : AppState :=
  { demoState with
    perfProfile := { targetFps := 120, hexMovementBoost := true, boostEngine := some .hxd }
    systemHealth := .MODIFIED
    isGameRunning := true
    isOverlayActive := true }

/-- Counterexample to C1: a complete direct (HxD) boost run from STABLE
with a linked target adds 8 log lines — the immediate `[HxD-INIT]` line
plus the 7 scheduled script lines — not 7 as claimed. -/
theorem hxd_eight_lines_counterexample :
    demoState.boostLog.length = 0 ∧
    ((handleHxDBoost 0 demoState).2.boostLog).length = 8 ∧
    ¬((handleHxDBoost 0 demoState).2.boostLog.length -
        demoState.boostLog.length = 7) := by
  refine ⟨rfl, rfl, ?_⟩
  intro h
  simp only [show ((handleHxDBoost 0 demoState).2.boostLog).length = 8 from rfl,
    show demoState.boostLog.length = 0 from rfl] at h
  omega

/-- C1 amended: a complete direct (HxD) boost run starting with health
STABLE and a linked target ends with no alert, health MODIFIED,
`isGameRunning = true`, `hexMovementBoost = true`, `boostEngine = hxd`,
`targetFps` equal to the previously chosen rate or 60 if none was chosen,
and exactly 8 new log lines (the immediate init line plus the 7 scheduled
script lines) prepended in reverse-chronological order (newest first). -/
theorem hxd_boost_final_state (t0 : Nat) (s : AppState) (p : String)
    (hlink : s.importedGamePath = some p)
    (hstable : s.systemHealth = Health.STABLE) :
    (handleHxDBoost t0 s).1 = none ∧
    (handleHxDBoost t0 s).2.systemHealth = Health.MODIFIED ∧
    (handleHxDBoost t0 s).2.isGameRunning = true ∧
    (handleHxDBoost t0 s).2.perfProfile.hexMovementBoost = true ∧
    (handleHxDBoost t0 s).2.perfProfile.boostEngine = some Engine.hxd ∧
    (handleHxDBoost t0 s).2.perfProfile.targetFps =
      (if s.perfProfile.targetFps = 0 then 60 else s.perfProfile.targetFps) ∧
    ∃ L, (handleHxDBoost t0 s).2.boostLog = L ++ s.boostLog ∧
      L.length = 8 ∧ L.Chain' (fun a b => b.1 < a.1) := by
  have hrun := runSteps_last t0 350 (hxdFinalStep s.perfProfile.targetFps)
    (hxdSteps s.perfProfile.targetFps) 0
    (addLog t0 ("[HxD-INIT] Accessing memory region for " ++ s.gameName ++ "...")
      { s with isOfficialBoosting := true, systemHealth := Health.OPTIMIZING })
    (by simp [hxdSteps])
  obtain ⟨s1, hs1⟩ := hrun
  have hlog := runSteps_boostLog t0 350 (hxdFinalStep s.perfProfile.targetFps)
    (fun st => rfl) (hxdSteps s.perfProfile.targetFps) 0
    (addLog t0 ("[HxD-INIT] Accessing memory region for " ++ s.gameName ++ "...")
      { s with isOfficialBoosting := true, systemHealth := Health.OPTIMIZING })
  have hbody : handleHxDBoost t0 s =
      (none, runSteps t0 350 0 (hxdSteps s.perfProfile.targetFps)
        (hxdFinalStep s.perfProfile.targetFps)
        (addLog t0 ("[HxD-INIT] Accessing memory region for " ++ s.gameName ++ "...")
          { s with isOfficialBoosting := true, systemHealth := Health.OPTIMIZING })) := by
    simp [handleHxDBoost, hlink]
  refine ⟨by rw [hbody], ?_, ?_, ?_, ?_, ?_, ?_⟩
  · rw [hbody]; simp [hs1, hxdFinalStep]
  · rw [hbody]; simp [hs1, hxdFinalStep]
  · rw [hbody]; simp [hs1, hxdFinalStep]
  · rw [hbody]; simp [hs1, hxdFinalStep]
  · rw [hbody]; simp [hs1, hxdFinalStep, orElse60]
  · refine ⟨scriptEntries t0 350 0 (hxdSteps s.perfProfile.targetFps) ++
      [(t0, "[HxD-INIT] Accessing memory region for " ++ s.gameName ++ "...")],
      ?_, ?_, ?_⟩
    · rw [hbody]
      simp only []
      rw [hlog]
      simp [addLog]
    · simp [scriptEntries, hxdSteps]
    · simp [scriptEntries, hxdSteps, List.chain'_append, List.chain'_cons]

/-- Witness for `hxd_boost_final_state` at `runningState` (rate 120,
target linked). -/
theorem hxd_boost_final_state_witness :
    runningState.importedGamePath = some "game.exe" ∧
    (handleHxDBoost 0 { runningState with systemHealth := .STABLE }).2.perfProfile.targetFps =
      (if ({ runningState with systemHealth := .STABLE } : AppState).perfProfile.targetFps = 0
        then 60 else ({ runningState with systemHealth := .STABLE } : AppState).perfProfile.targetFps) :=
  ⟨rfl, (hxd_boost_final_state 0 { runningState with systemHealth := .STABLE }
    "game.exe" rfl rfl).2.2.2.2.2.1⟩

/-- C2: a complete restore run (one immediate line, then the fixed 6-line
script at 450ms per step) starting from health MODIFIED ends with health
STABLE, the performance profile reset to
`{targetFps := 0, hexMovementBoost := false, boostEngine := none}`, and
`isGameRunning` and `isOverlayActive` both false. -/
theorem restore_final_state (t0 : Nat) (s : AppState)
    (h : s.systemHealth = Health.MODIFIED) :
    (handleRestoreSystem t0 s).systemHealth = Health.STABLE ∧
    (handleRestoreSystem t0 s).perfProfile =
      { targetFps := 0, hexMovementBoost := false, boostEngine := none } ∧
    (handleRestoreSystem t0 s).isGameRunning = false ∧
    (handleRestoreSystem t0 s).isOverlayActive = false ∧
    restoreSteps.length = 6 := by
  obtain ⟨s1, hs1⟩ := runSteps_last t0 450 restoreFinalStep restoreSteps 0
    (addLog t0 "[RESTORE] Initializing system normalization sequence..."
      { s with isRestoring := true })
    (by simp [restoreSteps])
  have hbody : handleRestoreSystem t0 s =
      runSteps t0 450 0 restoreSteps restoreFinalStep
        (addLog t0 "[RESTORE] Initializing system normalization sequence..."
          { s with isRestoring := true }) := rfl
  rw [hbody, hs1]
  exact ⟨rfl, rfl, rfl, rfl, rfl⟩

/-- Witness for `restore_final_state`: restoring the concrete MODIFIED
running session yields health STABLE and the cleared profile. -/
theorem restore_final_state_witness :
    runningState.systemHealth = Health.MODIFIED ∧
    (handleRestoreSystem 0 runningState).systemHealth = Health.STABLE ∧
    (handleRestoreSystem 0 runningState).perfProfile =
      { targetFps := 0, hexMovementBoost := false, boostEngine := none } :=
  ⟨rfl, (restore_final_state 0 runningState rfl).1,
    (restore_final_state 0 runningState rfl).2.1⟩

/-- Counterexample to C5: the direct (HxD) path does not require a chosen
frame rate.  At `demoState` — target linked, `targetFps = 0` — the claim
says the invocation surfaces a blocking alert and aborts with state
unchanged; instead it proceeds with no alert, mutates the state to
MODIFIED, and defaults the rate to 60. -/
theorem direct_boost_without_fps_counterexample :
    demoState.perfProfile.targetFps = 0 ∧
    (handleHxDBoost 0 demoState).1 = none ∧
    (handleHxDBoost 0 demoState).2.systemHealth = Health.MODIFIED ∧
    (handleHxDBoost 0 demoState).2.perfProfile.targetFps = 60 ∧
    (handleHxDBoost 0 demoState).2 ≠ demoState := by
  refine ⟨rfl, rfl, rfl, rfl, ?_⟩
  intro hEq
  have hh : (handleHxDBoost 0 demoState).2.systemHealth = Health.MODIFIED := rfl
  rw [hEq] at hh
  exact absurd hh (by decide)

/-- C5 amended: the orchestrated entry point (`selectBoostEngineAndStart`)
requires a chosen frame rate and a linked target; the direct path
(`handleHxDBoost`) requires only a linked target and defaults the rate to
60 when none is chosen.  Whenever a checked precondition is violated, the
invocation surfaces the corresponding blocking alert and aborts with the
state completely unchanged. -/
theorem boost_preconditions (t0 : Nat) (s : AppState) (engine : Engine)
    (cs : List String) :
    (s.importedGamePath = none →
      handleHxDBoost t0 s =
        (some "Please link a game executable target first.", s)) ∧
    (s.perfProfile.targetFps = 0 →
      selectBoostEngineAndStart t0 engine cs s =
        (some "Please select a target FPS first.", s)) ∧
    (s.perfProfile.targetFps ≠ 0 → s.importedGamePath = none →
      selectBoostEngineAndStart t0 engine cs s =
        (some "Please link a game executable target first.", s)) ∧
    (∀ p, s.importedGamePath = some p →
      (handleHxDBoost t0 s).1 = none ∧
      (s.perfProfile.targetFps = 0 →
        (handleHxDBoost t0 s).2.perfProfile.targetFps = 60)) := by
  refine ⟨?_, ?_, ?_, ?_⟩
  · intro h
    simp [handleHxDBoost, h]
  · intro h
    simp [selectBoostEngineAndStart, h]
  · intro h hnone
    simp [selectBoostEngineAndStart, h, hnone]
  · intro p hp
    obtain ⟨s1, hs1⟩ := runSteps_last t0 350 (hxdFinalStep s.perfProfile.targetFps)
      (hxdSteps s.perfProfile.targetFps) 0
      (addLog t0 ("[HxD-INIT] Accessing memory region for " ++ s.gameName ++ "...")
        { s with isOfficialBoosting := true, systemHealth := Health.OPTIMIZING })
      (by simp [hxdSteps])
    have hbody : handleHxDBoost t0 s =
        (none, runSteps t0 350 0 (hxdSteps s.perfProfile.targetFps)
          (hxdFinalStep s.perfProfile.targetFps)
          (addLog t0 ("[HxD-INIT] Accessing memory region for " ++ s.gameName ++ "...")
            { s with isOfficialBoosting := true, systemHealth := Health.OPTIMIZING })) := by
      simp [handleHxDBoost, hp]
    refine ⟨by rw [hbody], fun hz => ?_⟩
    rw [hbody]
    simp only []
    rw [hs1]
    simp [hxdFinalStep, orElse60, hz]

/-- Witness for `boost_preconditions`: with no linked target the orchestrated
path (rate already chosen) and the direct path each alert and leave the
concrete state untouched; with a linked target and no rate the direct path
proceeds at 60. -/
theorem boost_preconditions_witness :
    handleHxDBoost 0 { demoState with importedGamePath := none } =
      (some "Please link a game executable target first.",
        { demoState with importedGamePath := none }) ∧
    selectBoostEngineAndStart 0 Engine.smart [] demoState =
      (some "Please select a target FPS first.", demoState) ∧
    selectBoostEngineAndStart 0 Engine.smart []
        { runningState with importedGamePath := none } =
      (some "Please link a game executable target first.",
        { runningState with importedGamePath := none }) ∧
    (handleHxDBoost 0 demoState).2.perfProfile.targetFps = 60 :=
  ⟨(boost_preconditions 0 { demoState with importedGamePath := none }
      Engine.smart []).1 rfl,
    (boost_preconditions 0 demoState Engine.smart []).2.1 rfl,
    (boost_preconditions 0 { runningState with importedGamePath := none }
      Engine.smart []).2.2.1 (by decide) rfl,
    ((boost_preconditions 0 demoState Engine.smart []).2.2.2 "game.exe" rfl).2 rfl⟩

/-- Counterexample to C8: the externally-generated steps are not a prefix
of the orchestrated script — with one generated step `"X"` the script does
not start with its tagged line; the generated line sits at index 3, after
the three fixed opening lines. -/
theorem smart_steps_not_prefix_counterexample :
    (baseSteps Engine.smart "g" ["X"]).take 1 ≠ ["[NEURAL] Strategy: X"] ∧
    (baseSteps Engine.smart "g" ["X"]).getD 3 "" = "[NEURAL] Strategy: X" := by
  exact ⟨by decide, rfl⟩

/-- C8 amended: in the orchestrated (Smart) script the externally-generated
step strings are placed in the middle of the fixed script — after its first
three constant lines and before its remaining five constant lines (the
fixed script has 8 lines in total); each step is scheduled on a
400ms-per-step cadence (the log of a completed run is exactly the script's
timed entries, the log having first been cleared); and the final scheduled
step performs the same state transition as the direct path: health
MODIFIED, `isGameRunning = true`, overlay active. -/
theorem smart_boost_script (t0 : Nat) (engine : Engine) (g : String)
    (cs : List String) (s : AppState) :
    baseSteps engine g cs =
      (baseSteps engine g []).take 3 ++
        cs.map (fun x => "[NEURAL] Strategy: " ++ x) ++
        (baseSteps engine g []).drop 3 ∧
    (baseSteps engine g []).length = 8 ∧
    (startBoostingSequence t0 engine cs s).boostLog =
      scriptEntries t0 400 0 (baseSteps engine s.gameName cs) ∧
    (startBoostingSequence t0 engine cs s).systemHealth = Health.MODIFIED ∧
    (startBoostingSequence t0 engine cs s).isGameRunning = true ∧
    (startBoostingSequence t0 engine cs s).isOverlayActive = true := by
  obtain ⟨s1, hs1⟩ := runSteps_last t0 400 smartFinalStep
    (baseSteps engine s.gameName cs) 0
    { s with isOfficialBoosting := true, boostLog := [] }
    (by simp [baseSteps])
  have hbody : startBoostingSequence t0 engine cs s =
      runSteps t0 400 0 (baseSteps engine s.gameName cs) smartFinalStep
        { s with isOfficialBoosting := true, boostLog := [] } := rfl
  refine ⟨by simp [baseSteps], by simp [baseSteps], ?_, ?_, ?_, ?_⟩
  · rw [hbody,
      runSteps_boostLog t0 400 smartFinalStep (fun st => rfl)
        (baseSteps engine s.gameName cs) 0
        { s with isOfficialBoosting := true, boostLog := [] }]
    simp
  · rw [hbody, hs1]; rfl
  · rw [hbody, hs1]; rfl
  · rw [hbody, hs1]; rfl

/-- C9: selecting a frame-rate target while a game is marked running is a
no-op — the control is disabled, so triggering it leaves the whole state
(performance profile included) unchanged. -/
theorem fps_select_noop_while_running (t0 fps : Nat) (s : AppState)
    (h : s.isGameRunning = true) :
    fpsButtonClick t0 fps s = s := by
  simp [fpsButtonClick, h]

/-- Witness for `fps_select_noop_while_running` at the concrete running
session. -/
theorem fps_select_noop_while_running_witness :
    runningState.isGameRunning = true ∧
    fpsButtonClick 0 144 runningState = runningState :=
  ⟨rfl, fps_select_noop_while_running 0 144 runningState rfl⟩

/-- C10: starting the orchestrated (Smart) sequence first resets the log to
the empty list — its completed run's log consists of the script's entries
alone, every previously appended line discarded; the direct (HxD) path
instead adds its lines on top of the existing log; and every other
log-touching operation (frame-rate selection, restore, game import,
optimization analysis, process scan) only prepends lines, keeping the
previous log as a suffix. -/
theorem log_reset_and_prepend_discipline (t0 : Nat) (engine : Engine)
    (cs : List String) (s : AppState) (fps : Nat) (fileName : String)
    (advice : List OptimizationTip) (results : List ProcResult)
    (rnd : Nat → Nat × Nat) :
    (startBoostingSequence t0 engine cs s).boostLog =
      scriptEntries t0 400 0 (baseSteps engine s.gameName cs) ∧
    (∀ p, s.importedGamePath = some p →
      ∃ L, (handleHxDBoost t0 s).2.boostLog = L ++ s.boostLog) ∧
    (∃ L, (selectFpsTarget t0 fps s).boostLog = L ++ s.boostLog) ∧
    (∃ L, (handleRestoreSystem t0 s).boostLog = L ++ s.boostLog) ∧
    (∃ L, (handleImportGame t0 fileName s).boostLog = L ++ s.boostLog) ∧
    (∃ L, (handleOptimization t0 advice s).boostLog = L ++ s.boostLog) ∧
    (∃ L, (fetchProcesses t0 results rnd s).boostLog = L ++ s.boostLog) := by
  refine ⟨?_, ?_, ?_, ?_, ?_, ?_, ?_⟩
  · rw [show startBoostingSequence t0 engine cs s =
        runSteps t0 400 0 (baseSteps engine s.gameName cs) smartFinalStep
          { s with isOfficialBoosting := true, boostLog := [] } from rfl,
      runSteps_boostLog t0 400 smartFinalStep (fun st => rfl)
        (baseSteps engine s.gameName cs) 0
        { s with isOfficialBoosting := true, boostLog := [] }]
    simp
  · intro p hp
    have hbody : handleHxDBoost t0 s =
        (none, runSteps t0 350 0 (hxdSteps s.perfProfile.targetFps)
          (hxdFinalStep s.perfProfile.targetFps)
          (addLog t0 ("[HxD-INIT] Accessing memory region for " ++ s.gameName ++ "...")
            { s with isOfficialBoosting := true, systemHealth := Health.OPTIMIZING })) := by
      simp [handleHxDBoost, hp]
    refine ⟨scriptEntries t0 350 0 (hxdSteps s.perfProfile.targetFps) ++
      [(t0, "[HxD-INIT] Accessing memory region for " ++ s.gameName ++ "...")], ?_⟩
    rw [hbody]
    simp only []
    rw [runSteps_boostLog t0 350 (hxdFinalStep s.perfProfile.targetFps)
      (fun st => rfl) (hxdSteps s.perfProfile.targetFps) 0]
    simp [addLog]
  · exact ⟨[(t0, "[TUNER] Frame-pacing target synchronized to " ++ toString fps ++ " Hz.")],
      rfl⟩
  · refine ⟨scriptEntries t0 450 0 restoreSteps ++
      [(t0, "[RESTORE] Initializing system normalization sequence...")], ?_⟩
    rw [show handleRestoreSystem t0 s =
        runSteps t0 450 0 restoreSteps restoreFinalStep
          (addLog t0 "[RESTORE] Initializing system normalization sequence..."
            { s with isRestoring := true }) from rfl,
      runSteps_boostLog t0 450 restoreFinalStep (fun st => rfl) restoreSteps 0]
    simp [addLog]
  · exact ⟨[(t0, "[FILESYSTEM] Target Linked: " ++ fileName ++ ". Memory addresses mapped.")],
      rfl⟩
  · by_cases hg : s.gameName = ""
    · exact ⟨[], by simp [handleOptimization, hg]⟩
    · refine ⟨[(t0, "[KERNEL] Analysis complete. Execution engines initialized in " ++
          (if s.isOnline then "Cloud" else "Offline") ++ " mode."),
        (t0, "[CORE] Initiating " ++ (if s.isOnline then "Neural" else "Local Heuristic") ++
          " analysis for \"" ++ s.gameName ++ "\"...")], ?_⟩
      simp [handleOptimization, hg, addLog]
  · exact ⟨[(t0, "[SCAN] Analyzing background process tree for bottleneck identification...")],
      rfl⟩

/-- Witness for `log_reset_and_prepend_discipline` at the concrete linked
state: the smart run's log is exactly its script entries, and the direct
path keeps the old log as a suffix. -/
theorem log_reset_and_prepend_discipline_witness :
    (startBoostingSequence 0 Engine.smart [] demoState).boostLog =
      scriptEntries 0 400 0 (baseSteps Engine.smart "game" []) ∧
    (∃ L, (handleHxDBoost 0 demoState).2.boostLog = L ++ demoState.boostLog) :=
  ⟨(log_reset_and_prepend_discipline 0 Engine.smart [] demoState 0 "f"
      [] [] (fun _ => (0, 0))).1,
    (log_reset_and_prepend_discipline 0 Engine.smart [] demoState 0 "f"
      [] [] (fun _ => (0, 0))).2.1 "game.exe" rfl⟩

end Zenith
